import Mathlib

/-!
Shallow embedding of pgsqlite.py (class PGSqlite): the type mapper
(remap_column_type), the boolean value transformer, the per-column value
coercion of write_table_data, DDL synthesis for tables and indexes
(get_table_sql, get_index_sql), check-constraint extraction
(get_check_constraints), and the table selection of load_schema and
load_data_to_postgres.

Python strings are modelled as lists of characters; Python runtime errors
(Exception, KeyError, ValueError, AttributeError) as the PyError type;
functions that can raise return values in Except PyError.  The mutation of
the self.summary report dictionary, which no claim depends on, is not
modelled; each embedded function returns the value the source computes.
-/

set_option maxRecDepth 10000

namespace PGSqlite

/-- Characters of a Lean string literal; Python str values are modelled as List Char. -/
def chars (s : String) : List Char := s.data

/-- The double-quote character (ASCII 34). -/
def dq : Char := Char.ofNat 34

/-- The single-quote character (ASCII 39). -/
def sq : Char := Char.ofNat 39

/-- Does the second list start with the first; used to implement the Python
substring test and str.replace. -/
def startsWithL : List Char → List Char → Bool
  | [], _ => true
  | _ :: _, [] => false
  | a :: as, b :: bs => a == b && startsWithL as bs

/-- Python substring containment test (the `in` operator on strings). -/
def pyIn (needle : List Char) : List Char → Bool
  | [] => needle.isEmpty
  | c :: rest => startsWithL needle (c :: rest) || pyIn needle rest

/-- Python str.replace(old, new): replaces every non-overlapping occurrence,
scanning left to right and never rescanning the inserted replacement.  A fuel
counter (initialised to the length of the scanned string, which bounds the
number of steps) keeps the recursion structural; it is never exhausted on the
actual calls, which all use a non-empty old. -/
def pyReplaceGo (old new : List Char) : Nat → List Char → List Char
  | _, [] => []
  | 0, s => s
  | fuel + 1, c :: rest =>
    if !old.isEmpty && startsWithL old (c :: rest) then
      new ++ pyReplaceGo old new fuel (rest.drop (old.length - 1))
    else
      c :: pyReplaceGo old new fuel rest

/-- Python s.replace(old, new). -/
def pyReplace (s old new : List Char) : List Char := pyReplaceGo old new s.length s

/-- Source: PGSqlite.remap_column_type (pgsqlite.py lines 24-33).  An
if/elif chain of substring tests; the NVARCHAR branch keeps any length
qualifier because replace only rewrites the matched substring. -/
def remap_column_type (column_type : List Char) : List Char :=
  if pyIn (chars "STRING") column_type then chars "TEXT"
  else if pyIn (chars "NVARCHAR") column_type then
    pyReplace column_type (chars "NVARCHAR") (chars "VARCHAR")
  else if pyIn (chars "DATETIME") column_type then chars "TIMESTAMP"
  else if pyIn (chars "BLOB") column_type then chars "BYTEA"
  else column_type

/-- Python values that appear in a sqlite row or as a transformer result:
None, an int, or a str.  (sqlite3 row values can also be floats or bytes;
no claim depends on those encodings.) -/
inductive Value where
  | vnull
  | vint (n : Int)
  | vstr (s : List Char)
deriving DecidableEq

/-- Python exceptions raised by the embedded code. -/
inductive PyError where
  | exception (msg : List Char)
  | keyError (key : List Char)
  | valueError (msg : List Char)
  | attributeError (msg : List Char)
deriving DecidableEq

/-- Python truthiness: `not val` holds exactly on falsy values
(None, 0, the empty string). -/
def pyFalsy : Value → Bool
  | .vnull => true
  | .vint n => n == 0
  | .vstr s => s.isEmpty

/-- Python `val == 1`: true only for the int 1 (strings and None never
compare equal to an int). -/
def pyEqOne : Value → Bool
  | .vint n => n == 1
  | _ => false

/-- Python `val != 0`: false only for the int 0. -/
def pyNeZero : Value → Bool
  | .vint n => !(n == 0)
  | _ => true

/-- Python str.lower (ASCII case folding suffices for the compared texts). -/
def pyLower (s : List Char) : List Char := s.map Char.toLower

/-- Source: PGSqlite.boolean_transformer (pgsqlite.py lines 35-43).
The source returns None, "TRUE" or "FALSE"; `val.lower()` evaluated on a
non-string raises AttributeError, and the not-nullable falsy case raises a
bare Exception with the message below. -/
def boolean_transformer (val : Value) (nullable : Bool) : Except PyError Value :=
  if nullable && pyFalsy val then .ok .vnull
  else if !nullable && pyFalsy val then
    .error (.exception (chars "Value is None but column is not nullable"))
  else if pyEqOne val then .ok (.vstr (chars "TRUE"))
  else
    match val with
    | .vstr s =>
      if pyLower s == chars "true" then .ok (.vstr (chars "TRUE"))
      else .ok (.vstr (chars "FALSE"))
    | _ => .error (.attributeError (chars "object has no attribute lower"))

/-- One column of a source table, as sqlite_utils exposes it: name, raw type
text, the not-null flag, and the raw default-value text (None when absent).
table.columns lists these in ascending catalog ordinal (cid) order. -/
structure Column where
  name : List Char
  type : List Char
  notnull : Bool
  default_value : Option (List Char)
deriving DecidableEq

/-- One column entry of an index, as sqlite_utils exposes it; name is None
for rowid or expression entries, and desc marks a descending column. -/
structure XIndexColumn where
  name : Option (List Char)
  desc : Bool
deriving DecidableEq

/-- One index of a source table. -/
structure XIndex where
  name : List Char
  columns : List XIndexColumn
deriving DecidableEq

/-- One source table as read from the sqlite catalog: its columns in ordinal
order, its primary-key column names, the rowid flag, and its indexes.
(foreign_keys is omitted: no claim touches get_fk_sql.) -/
structure Table where
  name : List Char
  columns : List Column
  pks : List (List Char)
  use_rowid : Bool
  xindexes : List XIndex
deriving DecidableEq

/-- Source: transformer dispatch of write_table_data (pgsqlite.py lines
238-240).  self.transformers holds exactly the key "BOOLEAN" (init, line 65),
mapped to boolean_transformer; the transformer is called with
`not c.notnull` as the nullable argument. -/
def apply_transformer (c : Column) (v : Value) : Except PyError Value :=
  if c.type = chars "BOOLEAN" then boolean_transformer v (!c.notnull) else .ok v

/-- Source: the per-column body of the row loop of write_table_data
(pgsqlite.py lines 236-246): first the type transformer runs, then, for a
nullable column only, `if row[idx] != 0 and not row[idx]: row[idx] = None`. -/
def load_row_value (c : Column) (v : Value) : Except PyError Value :=
  match apply_transformer c v with
  | .error e => .error e
  | .ok w =>
    if !c.notnull then
      if pyNeZero w && pyFalsy w then .ok .vnull else .ok w
    else .ok w

/-- psycopg Identifier rendering: wrap in double quotes, doubling any
embedded double quote. -/
def quoteIdent (s : List Char) : List Char := [dq] ++ pyReplace s [dq] [dq, dq] ++ [dq]

/-- psycopg Literal rendering of a string: wrap in single quotes, doubling
any embedded single quote. -/
def quoteLit (s : List Char) : List Char := [sq] ++ pyReplace s [sq] [sq, sq] ++ [sq]

/-- Python sep.join(list) on strings. -/
def joinSep (sep : List Char) : List (List Char) → List Char
  | [] => []
  | [x] => x
  | x :: y :: rest => x ++ sep ++ joinSep sep (y :: rest)

/-- Python dict lookup d[k]; None models the KeyError case. -/
def dictGet {α : Type} (k : List Char) : List (List Char × α) → Option α
  | [] => Option.none
  | (k2, v) :: rest => if k2 = k then Option.some v else dictGet k rest

/-- Python dict assignment d[k] = v: replaces the value of an existing key in
place, otherwise appends in insertion order. -/
def dictSet {α : Type} (k : List Char) (v : α) : List (List Char × α) → List (List Char × α)
  | [] => [(k, v)]
  | (k2, w) :: rest => if k2 = k then (k2, v) :: rest else (k2, w) :: dictSet k v rest

/-- Source: the per-column clause built by the loop of get_table_sql
(pgsqlite.py lines 72-80): four spaces, the quoted name, the remapped type,
then NOT NULL if set and DEFAULT literal if the default text is truthy. -/
def column_sql (c : Column) : List Char :=
  let base := chars "    " ++ quoteIdent c.name ++ chars " " ++ remap_column_type c.type
  let base2 := if c.notnull then base ++ chars " NOT NULL" else base
  match c.default_value with
  | Option.some d => if d.isEmpty then base2 else base2 ++ chars " DEFAULT " ++ quoteLit d
  | Option.none => base2

/-- Source: PGSqlite.get_table_sql (pgsqlite.py lines 68-111).  Column
clauses are joined in list (catalog ordinal) order; the PRIMARY KEY
constraint clause, named PK_ followed by the concatenated pk column names,
is appended exactly when `table.pks and not table.use_rowid`; then
`self.checks_sql_by_table[table.name]` is read - a dict lookup that raises
KeyError when the table has no entry - but with _IGNORE_CHECKS = True the
check clauses are never appended.  The summary bookkeeping is omitted. -/
def get_table_sql (checks : List (List Char × List (List Char))) (table : Table) :
    Except PyError (List Char) :=
  let create_sql := chars "CREATE TABLE " ++ quoteIdent table.name ++ chars " ("
  let all1 := joinSep (chars ",\n") (table.columns.map column_sql)
  let all2 :=
    if !table.pks.isEmpty && !table.use_rowid then
      all1 ++ chars ",\n" ++ chars "    " ++ chars "    CONSTRAINT " ++
        quoteIdent (chars "PK_" ++ joinSep [] table.pks) ++ chars " PRIMARY KEY (" ++
        joinSep (chars ", ") (table.pks.map quoteIdent) ++ chars ")"
    else all1
  (dictGet table.name checks).elim
    (Except.error (.keyError table.name))
    (fun _cs => Except.ok (create_sql ++ chars "\n" ++ all2 ++ chars "\n" ++ chars ");"))

/-- The table DDL as the specification words it (spec section 4.3): CREATE
TABLE, one column clause per Column in ordinal order, and - only if the
table has a primary-key column list and is not flagged as using a synthetic
rowid - a constraint clause named PK_ followed by the concatenated pk
columns; check clauses are omitted because check emission is disabled. -/
def build_table_ddl_spec (table : Table) : List Char :=
  chars "CREATE TABLE " ++ quoteIdent table.name ++ chars " (" ++ chars "\n" ++
  joinSep (chars ",\n") (table.columns.map column_sql) ++
  (if table.pks ≠ [] ∧ table.use_rowid = false then
    chars ",\n" ++ chars "    " ++ chars "    CONSTRAINT " ++
      quoteIdent (chars "PK_" ++ joinSep [] table.pks) ++ chars " PRIMARY KEY (" ++
      joinSep (chars ", ") (table.pks.map quoteIdent) ++ chars ")"
  else []) ++ chars "\n" ++ chars ");"

/-- Source: the per-column body of the index loop of get_index_sql
(pgsqlite.py lines 131-137): a column whose name is falsy (None or empty) is
skipped with continue; otherwise the quoted name plus ASC, or DESC when
col.desc is set. -/
def index_column_sql (col : XIndexColumn) : Option (List Char) :=
  match col.name with
  | Option.none => Option.none
  | Option.some n =>
    if n.isEmpty then Option.none
    else Option.some (quoteIdent n ++ chars " " ++
      (if col.desc then chars "DESC" else chars "ASC"))

/-- Does an index column entry lack a resolvable name (Python falsy name)? -/
def index_column_unnamed (col : XIndexColumn) : Bool :=
  match col.name with
  | Option.none => true
  | Option.some n => n.isEmpty

/-- Source: PGSqlite.get_index_sql (pgsqlite.py lines 127-145).  One CREATE
INDEX statement per index; the column list joins the resolvable columns with
a comma.  The function has no error path.  The summary bookkeeping is
omitted. -/
def get_index_sql (table : Table) : List (List Char) :=
  table.xindexes.map (fun index =>
    chars "CREATE INDEX " ++ quoteIdent index.name ++ chars " ON " ++
      quoteIdent table.name ++ chars " (" ++
      joinSep (chars ",") (index.columns.filterMap index_column_sql) ++ chars ")")

/-- Python whitespace test for str.strip on the characters that occur in
table-definition text. -/
def pyIsSpace (c : Char) : Bool :=
  c == ' ' || c == '\t' || c == '\n' || c == '\r' ||
    c == Char.ofNat 11 || c == Char.ofNat 12

/-- Python str.strip(): remove leading and trailing whitespace. -/
def pyStrip (s : List Char) : List Char :=
  ((s.dropWhile pyIsSpace).reverse.dropWhile pyIsSpace).reverse

/-- Python s.rstrip(","): remove every trailing comma. -/
def pyRstripComma (s : List Char) : List Char :=
  (s.reverse.dropWhile (fun c => c == ',')).reverse

/-- Python s.split-on-newline, as used on the table-definition text. -/
def pySplitNl : List Char → List (List Char)
  | [] => [[]]
  | c :: rest =>
    if c == '\n' then [] :: pySplitNl rest
    else
      match pySplitNl rest with
      | [] => [[c]]
      | l :: ls => (c :: l) :: ls

/-- Source: the line loop of get_check_constraints (pgsqlite.py lines
293-301) for the definition text of one table.  A line containing "CHECK" first
runs line.index("(") and line.rindex(")") - each raising ValueError when the
character is absent - and is then captured as four spaces plus the stripped
line with trailing commas removed.  The sql_expr slice is computed and
discarded by the source; the non-CHECK lines feed the transpile accumulator,
which the source bracket/backtick-normalises and then discards, so neither
is modelled. -/
def check_lines : List (List Char) → Except PyError (List (List Char))
  | [] => .ok []
  | line :: rest =>
    if pyIn (chars "CHECK") line then
      if pyIn (chars "(") line then
        if pyIn (chars ")") line then
          match check_lines rest with
          | .ok cs => .ok ((chars "    " ++ pyRstripComma (pyStrip line)) :: cs)
          | .error e => .error e
        else .error (.valueError (chars "substring not found"))
      else .error (.valueError (chars "substring not found"))
    else check_lines rest

/-- Source: the row loop of get_check_constraints (pgsqlite.py lines
290-301), over the (name, sql) rows read from sqlite_master: the checks dict
gains one entry per row, holding the CHECK clauses captured from that row. -/
def gcc_aux (acc : List (List Char × List (List Char))) :
    List (List Char × List Char) → Except PyError (List (List Char × List (List Char)))
  | [] => .ok acc
  | (name, sql) :: rest =>
    match check_lines (pySplitNl sql) with
    | .ok cs => gcc_aux (dictSet name cs acc) rest
    | .error e => .error e

/-- Source: PGSqlite.get_check_constraints (pgsqlite.py lines 285-306),
as a function of the (name, sql) rows of sqlite_master. -/
def get_check_constraints (rows : List (List Char × List Char)) :
    Except PyError (List (List Char × List (List Char))) :=
  gcc_aux [] rows

/-- Source: the table loop of load_schema (pgsqlite.py lines 196-202): a
table named sqlite_sequence is skipped with continue before any DDL
synthesis, so these are the names of the tables whose CREATE TABLE is
emitted. -/
def load_schema_table_names (db : List Table) : List (List Char) :=
  (db.filter (fun t => !(t.name == chars "sqlite_sequence"))).map Table.name

/-- Source: load_data_to_postgres (pgsqlite.py lines 256-270): a
summary data entry is created and a write_table_data copy task launched for
every table of db.tables, with no skip. -/
def load_data_table_names (db : List Table) : List (List Char) :=
  db.map Table.name

end PGSqlite

namespace PGSqlite

/-- Helper: the five mutually exclusive branches of remap_column_type,
stated as conditional equations. -/
theorem remap_cases (s : List Char) :
    (pyIn (chars "STRING") s = true → remap_column_type s = chars "TEXT") ∧
    (pyIn (chars "STRING") s = false → pyIn (chars "NVARCHAR") s = true →
      remap_column_type s = pyReplace s (chars "NVARCHAR") (chars "VARCHAR")) ∧
    (pyIn (chars "STRING") s = false → pyIn (chars "NVARCHAR") s = false →
      pyIn (chars "DATETIME") s = true → remap_column_type s = chars "TIMESTAMP") ∧
    (pyIn (chars "STRING") s = false → pyIn (chars "NVARCHAR") s = false →
      pyIn (chars "DATETIME") s = false → pyIn (chars "BLOB") s = true →
      remap_column_type s = chars "BYTEA") ∧
    (pyIn (chars "STRING") s = false → pyIn (chars "NVARCHAR") s = false →
      pyIn (chars "DATETIME") s = false → pyIn (chars "BLOB") s = false →
      remap_column_type s = s) := by
  refine ⟨?_, ?_, ?_, ?_, ?_⟩ <;> intros <;> simp [remap_column_type, *]

/-- Claim C1 counterexample: the input "BLOB STRING" contains "BLOB" but is
mapped to "TEXT", not "BYTEA", because the STRING rule matches first; so the
unconditional rule "any input containing BLOB maps to BYTEA" is false. -/
theorem remap_blob_counterexample :
    remap_column_type (chars "BLOB STRING") = chars "TEXT" ∧
    chars "TEXT" ≠ chars "BYTEA" := by
  exact ⟨rfl, by decide⟩

/-- Claim C1 (amended): remap_column_type is a total function (it never
raises), and its four rewrite rules apply first-match-wins in the order
STRING, NVARCHAR, DATETIME, BLOB: an input containing "STRING" maps to
"TEXT"; one containing "NVARCHAR" but not "STRING" has "NVARCHAR" replaced
by "VARCHAR" (keeping any length qualifier); one containing "DATETIME" but
neither of the previous maps to "TIMESTAMP"; one containing "BLOB" and none
of the previous maps to "BYTEA". -/
theorem remap_column_type_first_match (s : List Char) :
    (pyIn (chars "STRING") s = true → remap_column_type s = chars "TEXT") ∧
    (pyIn (chars "STRING") s = false → pyIn (chars "NVARCHAR") s = true →
      remap_column_type s = pyReplace s (chars "NVARCHAR") (chars "VARCHAR")) ∧
    (pyIn (chars "STRING") s = false → pyIn (chars "NVARCHAR") s = false →
      pyIn (chars "DATETIME") s = true → remap_column_type s = chars "TIMESTAMP") ∧
    (pyIn (chars "STRING") s = false → pyIn (chars "NVARCHAR") s = false →
      pyIn (chars "DATETIME") s = false → pyIn (chars "BLOB") s = true →
      remap_column_type s = chars "BYTEA") :=
  ⟨(remap_cases s).1, (remap_cases s).2.1, (remap_cases s).2.2.1, (remap_cases s).2.2.2.1⟩

/-- Witness for the amended claim C1, at the input "BLOB". -/
theorem remap_column_type_first_match_witness :
    remap_column_type (chars "BLOB") = chars "BYTEA" :=
  (remap_column_type_first_match (chars "BLOB")).2.2.2
    (by decide) (by decide) (by decide) (by decide)

/-- Claim C2: the boolean transformer satisfies all five test vectors of the
specification: transform(0, nullable) = NULL; transform(0, not nullable)
raises (what the spec calls InvariantViolation is a bare Exception in the
source);
transform(1, not nullable) = TRUE; transform("true", nullable) = TRUE;
transform("", nullable) = NULL. -/
theorem boolean_transformer_test_vectors :
    boolean_transformer (.vint 0) true = .ok .vnull ∧
    boolean_transformer (.vint 0) false =
      .error (.exception (chars "Value is None but column is not nullable")) ∧
    boolean_transformer (.vint 1) false = .ok (.vstr (chars "TRUE")) ∧
    boolean_transformer (.vstr (chars "true")) true = .ok (.vstr (chars "TRUE")) ∧
    boolean_transformer (.vstr (chars "")) true = .ok .vnull :=
  ⟨rfl, rfl, rfl, rfl, rfl⟩

/-- Claim C3 (code bug): the spec says every truthy numeric encoding is
accepted as true, but the source evaluates `val == 1 or val.lower() == "true"`,
so the truthy int 2 falls through to `(2).lower()` and raises AttributeError
instead of returning TRUE, for either nullability. -/
theorem boolean_transformer_truthy_int_raises :
    boolean_transformer (.vint 2) true =
      .error (.attributeError (chars "object has no attribute lower")) ∧
    boolean_transformer (.vint 2) false =
      .error (.attributeError (chars "object has no attribute lower")) :=
  ⟨rfl, rfl⟩

/-- Claim C8 counterexample: remap_column_type is not idempotent.  The input
"NNVARCHAR" contains "NVARCHAR"; replacing it yields "NVARCHAR" again, and a
second application rewrites that to "VARCHAR". -/
theorem remap_idempotence_counterexample :
    remap_column_type (remap_column_type (chars "NNVARCHAR")) ≠
      remap_column_type (chars "NNVARCHAR") := by decide

/-- Claim C8 (amended): any input matching none of the four rewrite rules is
returned unchanged, and remap_column_type is idempotent on every input that
does not contain "NVARCHAR"; idempotence can fail only on NVARCHAR inputs
whose replacement recreates the substring (such as "NNVARCHAR"). -/
theorem remap_column_type_idempotent_no_nvarchar (s : List Char) :
    (pyIn (chars "NVARCHAR") s = false →
      remap_column_type (remap_column_type s) = remap_column_type s) ∧
    (pyIn (chars "STRING") s = false → pyIn (chars "NVARCHAR") s = false →
      pyIn (chars "DATETIME") s = false → pyIn (chars "BLOB") s = false →
      remap_column_type s = s) := by
  constructor
  · intro hnv
    cases hstr : pyIn (chars "STRING") s with
    | true =>
      rw [(remap_cases s).1 hstr]
      decide
    | false =>
      cases hdt : pyIn (chars "DATETIME") s with
      | true =>
        rw [(remap_cases s).2.2.1 hstr hnv hdt]
        decide
      | false =>
        cases hbl : pyIn (chars "BLOB") s with
        | true =>
          rw [(remap_cases s).2.2.2.1 hstr hnv hdt hbl]
          decide
        | false =>
          rw [(remap_cases s).2.2.2.2 hstr hnv hdt hbl]
          exact (remap_cases s).2.2.2.2 hstr hnv hdt hbl
  · exact fun h1 h2 h3 h4 => (remap_cases s).2.2.2.2 h1 h2 h3 h4

/-- Witness for the amended claim C8, at the input "INTEGER". -/
theorem remap_column_type_idempotent_no_nvarchar_witness :
    remap_column_type (remap_column_type (chars "INTEGER")) =
      remap_column_type (chars "INTEGER") ∧
    remap_column_type (chars "INTEGER") = chars "INTEGER" :=
  ⟨(remap_column_type_idempotent_no_nvarchar (chars "INTEGER")).1 (by decide),
   (remap_column_type_idempotent_no_nvarchar (chars "INTEGER")).2
     (by decide) (by decide) (by decide) (by decide)⟩

/-- Helper: a value other than the int 0 satisfies the Python test
`val != 0`. -/
theorem pyNeZero_of_ne {w : Value} (h : w ≠ .vint 0) : pyNeZero w = true := by
  cases w with
  | vnull => rfl
  | vstr s => rfl
  | vint n =>
    have hn : n ≠ 0 := by
      intro h0
      exact h (by rw [h0])
    simp [pyNeZero, hn]

/-- Claim C4: in the row loop of write_table_data, for a nullable column a
transformed value that is falsy but not the int 0 is coerced to None after
the type transformer runs; the int 0 is transmitted unchanged; and a value
in a not-null column is never coerced by this rule. -/
theorem load_row_value_empty_coercion (c : Column) (v w : Value)
    (h : apply_transformer c v = .ok w) :
    (c.notnull = false → pyFalsy w = true → w ≠ .vint 0 →
      load_row_value c v = .ok .vnull) ∧
    (c.notnull = false → w = .vint 0 → load_row_value c v = .ok (.vint 0)) ∧
    (c.notnull = true → load_row_value c v = .ok w) := by
  refine ⟨?_, ?_, ?_⟩
  · intro hn hf h0
    simp [load_row_value, h, hn, pyNeZero_of_ne h0, hf]
  · intro hn h0
    subst h0
    simp [load_row_value, h, hn, pyNeZero]
  · intro hn
    simp [load_row_value, h, hn]

/-- Witness for claim C4: a nullable TEXT column holding the empty string is
coerced to None. -/
theorem load_row_value_empty_coercion_witness :
    load_row_value ⟨chars "c", chars "TEXT", false, Option.none⟩ (.vstr []) = .ok .vnull :=
  (load_row_value_empty_coercion ⟨chars "c", chars "TEXT", false, Option.none⟩
    (.vstr []) (.vstr []) rfl).1 rfl rfl (by decide)

/-- Claim C5: for every table whose name has a checks entry (the situation
load_schema always establishes), get_table_sql emits exactly the DDL the
spec describes: one column clause per column in ascending catalog ordinal
order, and a PRIMARY KEY constraint clause named PK_ followed by the
concatenated pk columns if and only if the table has a non-empty primary-key
list and is not flagged as using a synthetic rowid. -/
theorem get_table_sql_matches_spec (checks : List (List Char × List (List Char)))
    (table : Table) (cs : List (List Char))
    (h : dictGet table.name checks = Option.some cs) :
    get_table_sql checks table = Except.ok (build_table_ddl_spec table) := by
  rcases table with ⟨name, cols, pks, rowid, idx⟩
  simp only [get_table_sql, build_table_ddl_spec] at h ⊢
  rw [h]
  cases pks <;> cases rowid <;> simp [Option.elim, List.append_assoc]

/-- Witness for claim C5: a one-column table with an explicit primary key. -/
theorem get_table_sql_matches_spec_witness :
    get_table_sql [(chars "Users", [])]
      ⟨chars "Users", [⟨chars "id", chars "INTEGER", false, Option.none⟩],
        [chars "id"], false, []⟩ =
    Except.ok (build_table_ddl_spec
      ⟨chars "Users", [⟨chars "id", chars "INTEGER", false, Option.none⟩],
        [chars "id"], false, []⟩) :=
  get_table_sql_matches_spec [(chars "Users", [])]
    ⟨chars "Users", [⟨chars "id", chars "INTEGER", false, Option.none⟩],
      [chars "id"], false, []⟩ [] rfl

/-- Claim C10: get_table_sql reads checks_sql_by_table[table.name] even
though check emission is disabled, so on any table whose name is not a key
of the checks map it raises KeyError instead of producing DDL. -/
theorem get_table_sql_requires_checks_entry
    (checks : List (List Char × List (List Char))) (table : Table)
    (h : dictGet table.name checks = Option.none) :
    get_table_sql checks table = Except.error (.keyError table.name) := by
  simp only [get_table_sql]
  rw [h]
  rfl

/-- Witness for claim C10: a fresh instance has an empty checks map, and DDL
synthesis for any table then raises KeyError. -/
theorem get_table_sql_requires_checks_entry_witness :
    get_table_sql [] ⟨chars "t", [], [], true, []⟩ =
      Except.error (.keyError (chars "t")) :=
  get_table_sql_requires_checks_entry [] ⟨chars "t", [], [], true, []⟩ rfl

/-- Helper: an unnamed index column entry contributes nothing. -/
theorem index_column_sql_eq_none {col : XIndexColumn}
    (h : index_column_unnamed col = true) : index_column_sql col = Option.none := by
  rcases col with ⟨name, desc⟩
  cases name with
  | none => rfl
  | some n =>
    simp only [index_column_unnamed] at h
    simp [index_column_sql, h]

/-- Helper: filterMap over a list on which the function is constantly none. -/
theorem filterMap_none_of_all {α β : Type} (f : α → Option β) (l : List α)
    (h : ∀ a ∈ l, f a = Option.none) : l.filterMap f = [] := by
  induction l with
  | nil => rfl
  | cons a t ih =>
    rw [List.filterMap_cons, h a (List.mem_cons_self a t)]
    exact ih (fun x hx => h x (List.mem_cons_of_mem _ hx))

/-- Claim C6 counterexample: for an index whose only column entry has no
resolvable name, get_index_sql raises nothing and produces the CREATE INDEX
statement with an empty column list, refuting the claim that synthesis
raises a SchemaTranslationError instead. -/
theorem get_index_sql_empty_columns_counterexample :
    get_index_sql ⟨chars "t", [], [], true, [⟨chars "i", [⟨Option.none, false⟩]⟩]⟩ =
      [chars "CREATE INDEX \"i\" ON \"t\" ()"] := by rfl

/-- Claim C6 (amended): get_index_sql never raises; for every index whose
column entries all lack a resolvable name it emits a CREATE INDEX statement
with an empty column list, leaving the invalid statement for the target
engine to reject at apply time. -/
theorem get_index_sql_degenerate (table : Table) (index : XIndex)
    (hmem : index ∈ table.xindexes)
    (hcols : ∀ col ∈ index.columns, index_column_unnamed col = true) :
    (chars "CREATE INDEX " ++ quoteIdent index.name ++ chars " ON " ++
      quoteIdent table.name ++ chars " (" ++ chars ")") ∈ get_index_sql table := by
  have hfm : index.columns.filterMap index_column_sql = [] :=
    filterMap_none_of_all index_column_sql index.columns
      (fun col hc => index_column_sql_eq_none (hcols col hc))
  refine List.mem_map.mpr ⟨index, hmem, ?_⟩
  rw [hfm]
  simp [joinSep]

/-- Witness for the amended claim C6: an index with two unresolvable column
entries (a rowid entry and an empty-named entry). -/
theorem get_index_sql_degenerate_witness :
    (chars "CREATE INDEX \"j\" ON \"u\" ()") ∈
      get_index_sql ⟨chars "u", [], [], true,
        [⟨chars "j", [⟨Option.none, true⟩, ⟨Option.some [], false⟩]⟩]⟩ := by
  have h := get_index_sql_degenerate
    ⟨chars "u", [], [], true,
      [⟨chars "j", [⟨Option.none, true⟩, ⟨Option.some [], false⟩]⟩]⟩
    ⟨chars "j", [⟨Option.none, true⟩, ⟨Option.some [], false⟩]⟩
    (by decide) (by decide)
  exact (show (chars "CREATE INDEX " ++ quoteIdent (chars "j") ++ chars " ON " ++
    quoteIdent (chars "u") ++ chars " (" ++ chars ")") =
    chars "CREATE INDEX \"j\" ON \"u\" ()" from rfl) ▸ h

/-- Helper: on a list of lines whose CHECK lines all contain both
parentheses, the line loop captures exactly the CHECK lines, each trimmed,
stripped of trailing commas and prefixed with four spaces. -/
theorem check_lines_ok (ls : List (List Char))
    (hp : ∀ l ∈ ls, pyIn (chars "CHECK") l = true →
      (pyIn (chars "(") l = true ∧ pyIn (chars ")") l = true)) :
    check_lines ls = Except.ok ((ls.filter (fun l => pyIn (chars "CHECK") l)).map
      (fun l => chars "    " ++ pyRstripComma (pyStrip l))) := by
  induction ls with
  | nil => rfl
  | cons l rest ih =>
    have hrest : ∀ x ∈ rest, pyIn (chars "CHECK") x = true →
        (pyIn (chars "(") x = true ∧ pyIn (chars ")") x = true) :=
      fun x hx => hp x (List.mem_cons_of_mem _ hx)
    cases hc : pyIn (chars "CHECK") l with
    | false => simp [check_lines, hc, ih hrest, List.filter_cons]
    | true =>
      obtain ⟨h1, h2⟩ := hp l (List.mem_cons_self l rest) hc
      simp [check_lines, hc, h1, h2, ih hrest, List.filter_cons]

/-- Claim C7 counterexample: a table definition with a line that contains
the token CHECK but no parenthesis makes the extractor raise ValueError
(line.index of an absent substring), refuting the claim that every
table-definition text is processed without raising. -/
theorem get_check_constraints_raises_counterexample :
    get_check_constraints
      [(chars "t", chars "CREATE TABLE t -- CHECK later\n  x INTEGER\n")] =
      Except.error (.valueError (chars "substring not found")) := by rfl

/-- Claim C7 (amended): every line containing the token CHECK that also
contains a left and a right parenthesis is captured as one clause - the line
trimmed, trailing commas stripped, prefixed with four spaces; a CHECK line
lacking a parenthesis raises ValueError; bracket-quoted and backtick-quoted
identifiers in the captured clauses are kept verbatim (the normalisation of
the source applies only to the accumulated non-CHECK text, which it
discards). -/
theorem get_check_constraints_captures (name sqltext : List Char)
    (hp : ∀ l ∈ pySplitNl sqltext, pyIn (chars "CHECK") l = true →
      (pyIn (chars "(") l = true ∧ pyIn (chars ")") l = true)) :
    get_check_constraints [(name, sqltext)] =
      Except.ok [(name, ((pySplitNl sqltext).filter
        (fun l => pyIn (chars "CHECK") l)).map
        (fun l => chars "    " ++ pyRstripComma (pyStrip l)))] := by
  simp [get_check_constraints, gcc_aux, check_lines_ok (pySplitNl sqltext) hp, dictSet]

/-- Witness for the amended claim C7: the captured clause keeps its
bracket-quoted identifier verbatim. -/
theorem get_check_constraints_captures_witness :
    get_check_constraints
      [(chars "t", chars "CREATE TABLE t (\n  y INTEGER CHECK ([y] > 0),\n)")] =
      Except.ok [(chars "t", [chars "    y INTEGER CHECK ([y] > 0)"])] :=
  (get_check_constraints_captures (chars "t")
    (chars "CREATE TABLE t (\n  y INTEGER CHECK ([y] > 0),\n)") (by decide)).trans rfl

/-- Claim C9: a source table named sqlite_sequence gets no CREATE TABLE from
the schema-build phase, yet the data-load phase still creates a data summary
entry and launches a per-table copy task for it. -/
theorem sqlite_sequence_schema_data_mismatch (db : List Table)
    (h : chars "sqlite_sequence" ∈ db.map Table.name) :
    chars "sqlite_sequence" ∉ load_schema_table_names db ∧
    chars "sqlite_sequence" ∈ load_data_table_names db := by
  constructor
  · intro hmem
    rw [load_schema_table_names] at hmem
    rcases List.mem_map.mp hmem with ⟨t, ht, hname⟩
    have hf := (List.mem_filter.mp ht).2
    rw [hname] at hf
    simp at hf
  · exact h

/-- Witness for claim C9: a database holding only sqlite_sequence. -/
theorem sqlite_sequence_schema_data_mismatch_witness :
    chars "sqlite_sequence" ∉
      load_schema_table_names [⟨chars "sqlite_sequence", [], [], true, []⟩] ∧
    chars "sqlite_sequence" ∈
      load_data_table_names [⟨chars "sqlite_sequence", [], [], true, []⟩] :=
  sqlite_sequence_schema_data_mismatch
    [⟨chars "sqlite_sequence", [], [], true, []⟩] (by decide)

end PGSqlite
